import Mathlib

/-!
Shallow embedding of the `hft-scalping-bot` repository (files
`app/database.py`, `app/main.py`, `app/config.py`) and proofs about the
claims of its specification.

The durable store (`app/database.py`) is modelled as in-memory lists of
rows in insertion order; SQL statements are translated operation by
operation.  The supervisor (`app/main.py`) is modelled as the sequence of
events each code path emits, with the asyncio ready queue made explicit
where a claim depends on task scheduling.
-/

namespace HftBot

/-- JSON values as stored in the `JSON` columns (`TradeLog.metadata`,
`BotSettings.value`).  `Json.null` is the SQL/JSON null, which SQLAlchemy
decodes to the Python value `None`. -/
inductive Json where
  | null
  | bool (b : Bool)
  | num (n : Int)
  | str (s : String)
  | arr (elems : List Json)
  | obj (entries : List (String × Json))

/-!
## Settings store (`bot_settings` table, database.py lines 45-51, 104-141)

A row of `bot_settings` is a `(key, value)` pair; the autoincrement `id`
and the `updated_at` timestamp columns play no role in any claim and are
omitted.  The table is kept in insertion order.
-/

/-- The `bot_settings` table in insertion order. -/
abbrev SettingsStore := List (String × Json)

/-- Number of rows whose `key` column equals `k`. -/
def countKey (k : String) (s : SettingsStore) : Nat :=
  (s.filter (fun r => r.1 == k)).length

/-- The `value` column of every row whose `key` column equals `k`,
in table order. -/
def valuesFor (k : String) (s : SettingsStore) : List Json :=
  (s.filter (fun r => r.1 == k)).map (fun r => r.2)

/-- `get_bot_setting` (database.py lines 104-112): `SELECT ... WHERE key = k`,
then `row.value if row else None`.  Both the stored JSON null and the
absent-row result are the Python value `None`, i.e. `Json.null`. -/
def get_bot_setting (k : String) (s : SettingsStore) : Json :=
  match s.find? (fun r => r.1 == k) with
  | some r => r.2
  | none => Json.null

/-- `set_bot_setting` (database.py lines 114-141): check-then-act upsert.
`SELECT ... WHERE key = k`; if a row exists, `UPDATE ... SET value = v
WHERE key = k` (which rewrites every row matching the `WHERE` clause),
otherwise `INSERT` a fresh row.  The function returns `True` on commit;
storage failures roll back and re-raise and are outside this
deterministic model. -/
def set_bot_setting (k : String) (v : Json) (s : SettingsStore) : SettingsStore :=
  match s.find? (fun r => r.1 == k) with
  | some _ => s.map (fun r => if r.1 = k then (r.1, v) else r)
  | none => s ++ [(k, v)]

lemma filter_map_set (k : String) (v : Json) (s : SettingsStore) :
    (s.map (fun r => if r.1 = k then (r.1, v) else r)).filter (fun r => r.1 == k)
      = (s.filter (fun r => r.1 == k)).map (fun r => (r.1, v)) := by
  rw [List.filter_map]
  have h1 : s.filter ((fun r : String × Json => r.1 == k) ∘
      (fun r => if r.1 = k then (r.1, v) else r)) = s.filter (fun r => r.1 == k) := by
    apply List.filter_congr
    intro x _
    by_cases hb : x.1 = k
    · simp [hb]
    · simp [hb]
  rw [h1]
  apply List.map_congr_left
  intro a ha
  have hpa : a.1 = k := by
    have := (List.mem_filter.mp ha).2
    exact beq_iff_eq.mp this
  simp only [hpa, if_true]

lemma countKey_set (k : String) (v : Json) (s : SettingsStore)
    (h : countKey k s ≤ 1) :
    countKey k (set_bot_setting k v s) = 1 ∧
      valuesFor k (set_bot_setting k v s) = [v] := by
  unfold set_bot_setting
  cases hf : s.find? (fun r => r.1 == k) with
  | none =>
    have hnil : s.filter (fun r => r.1 == k) = [] := by
      rw [List.filter_eq_nil_iff]
      exact List.find?_eq_none.mp hf
    constructor
    · simp [countKey, List.filter_append, hnil, List.filter_cons]
    · simp [valuesFor, List.filter_append, hnil, List.filter_cons]
  | some r =>
    have hmem : r ∈ s := List.mem_of_find?_eq_some hf
    have hpred := List.find?_some hf
    have hmemf : r ∈ s.filter (fun r => r.1 == k) :=
      List.mem_filter.mpr ⟨hmem, hpred⟩
    have hne : s.filter (fun r => r.1 == k) ≠ [] := List.ne_nil_of_mem hmemf
    have hlen : (s.filter (fun r => r.1 == k)).length = 1 :=
      Nat.le_antisymm h (List.length_pos.mpr hne)
    obtain ⟨a, hfil⟩ := List.length_eq_one.mp hlen
    constructor
    · simp [countKey, filter_map_set, hfil]
    · simp [valuesFor, filter_map_set, hfil]

lemma countKey_foldl_le (k : String) :
    ∀ (vs : List Json) (acc : SettingsStore), countKey k acc ≤ 1 →
      countKey k (vs.foldl (fun a v => set_bot_setting k v a) acc) ≤ 1
  | [], _, h => h
  | v :: vs, acc, h =>
    countKey_foldl_le k vs (set_bot_setting k v acc)
      (Nat.le_of_eq (countKey_set k v acc h).1)

/-- Claim C1: for every key `k` and values `v1`, `v2`, running
`set_bot_setting k v1` then `set_bot_setting k v2` leaves exactly one row
for `k`, whose value is `v2`; and repeating `set_bot_setting` on the same
key any number of times never produces a second row for that key.  The
hypothesis is the table's `unique=True` constraint on the `key` column
(at most one row per key). -/
theorem c1_set_setting_upsert (s : SettingsStore) (k : String) (v1 v2 : Json)
    (h : countKey k s ≤ 1) :
    countKey k (set_bot_setting k v2 (set_bot_setting k v1 s)) = 1 ∧
    valuesFor k (set_bot_setting k v2 (set_bot_setting k v1 s)) = [v2] ∧
    ∀ vs : List Json,
      countKey k (vs.foldl (fun acc v => set_bot_setting k v acc) s) ≤ 1 := by
  have h1 := countKey_set k v1 s h
  have h2 := countKey_set k v2 (set_bot_setting k v1 s) (Nat.le_of_eq h1.1)
  exact ⟨h2.1, h2.2, fun vs => countKey_foldl_le k vs s h⟩

/-- Concrete instance of `c1_set_setting_upsert` on the empty store. -/
theorem c1_set_setting_upsert_witness :
    countKey "mode" (set_bot_setting "mode" (Json.str "b")
        (set_bot_setting "mode" (Json.str "a") [])) = 1 ∧
    valuesFor "mode" (set_bot_setting "mode" (Json.str "b")
        (set_bot_setting "mode" (Json.str "a") [])) = [Json.str "b"] ∧
    ∀ vs : List Json,
      countKey "mode"
        (vs.foldl (fun acc v => set_bot_setting "mode" v acc) []) ≤ 1 :=
  c1_set_setting_upsert [] "mode" (Json.str "a") (Json.str "b") (by decide)

/-- Claim C10: a key stored with the JSON null value is indistinguishable,
through `get_bot_setting`, from a key that was never written: both return
the Python value `None` (`Json.null`). -/
theorem c10_null_setting_indistinguishable (s1 s2 : SettingsStore) (k : String)
    (h1 : s1.find? (fun r => r.1 == k) = some (k, Json.null))
    (h2 : s2.find? (fun r => r.1 == k) = none) :
    get_bot_setting k s1 = get_bot_setting k s2 ∧
      get_bot_setting k s1 = Json.null := by
  unfold get_bot_setting
  rw [h1, h2]
  exact ⟨rfl, rfl⟩

/-- Concrete instance of `c10_null_setting_indistinguishable`: the store
holding `flag ↦ null` versus the empty store. -/
theorem c10_null_setting_indistinguishable_witness :
    get_bot_setting "flag" [("flag", Json.null)] = get_bot_setting "flag" [] ∧
      get_bot_setting "flag" [("flag", Json.null)] = Json.null :=
  c10_null_setting_indistinguishable [("flag", Json.null)] [] "flag" rfl rfl

/-!
## Trade ledger (`trades` table, database.py lines 24-43, 66-102)

A row of `trades`.  `DateTime` columns are carried as `Nat` timestamps;
the numeric (`Float`) and `JSON` columns are never computed on by the
store, only stored and copied, so they are carried as `Json` values.
-/

/-- One row of the `trades` table (class `TradeLog`, database.py 24-43). -/
structure TradeLog where
  id : String
  symbol : String
  side : String
  quantity : Json
  entry_price : Json
  exit_price : Json
  stop_loss : Json
  take_profit : Json
  leverage : Json
  status : String
  pnl : Json
  pnl_percentage : Json
  opened_at : Nat
  closed_at : Option Nat
  reason : String
  metadata : Json
  created_at : Nat

/-- The `update_data` dict passed to `update_trade`: a partial field set,
`none` meaning the key is absent from the dict (column untouched). -/
structure UpdateData where
  id : Option String := none
  symbol : Option String := none
  side : Option String := none
  quantity : Option Json := none
  entry_price : Option Json := none
  exit_price : Option Json := none
  stop_loss : Option Json := none
  take_profit : Option Json := none
  leverage : Option Json := none
  status : Option String := none
  pnl : Option Json := none
  pnl_percentage : Option Json := none
  opened_at : Option Nat := none
  closed_at : Option (Option Nat) := none
  reason : Option String := none
  metadata : Option Json := none
  created_at : Option Nat := none

/-- Effect of `UPDATE trades SET <update_data>` on one row: every column
named in the dict is overwritten, every other column is untouched. -/
def applyUpdate (r : TradeLog) (u : UpdateData) : TradeLog where
  id := u.id.getD r.id
  symbol := u.symbol.getD r.symbol
  side := u.side.getD r.side
  quantity := u.quantity.getD r.quantity
  entry_price := u.entry_price.getD r.entry_price
  exit_price := u.exit_price.getD r.exit_price
  stop_loss := u.stop_loss.getD r.stop_loss
  take_profit := u.take_profit.getD r.take_profit
  leverage := u.leverage.getD r.leverage
  status := u.status.getD r.status
  pnl := u.pnl.getD r.pnl
  pnl_percentage := u.pnl_percentage.getD r.pnl_percentage
  opened_at := u.opened_at.getD r.opened_at
  closed_at := u.closed_at.getD r.closed_at
  reason := u.reason.getD r.reason
  metadata := u.metadata.getD r.metadata
  created_at := u.created_at.getD r.created_at

/-- The re-raised storage exception channel of the `try/except` blocks in
database.py.  The deterministic model has no storage failure, so no code
path of this file ever produces it. -/
inductive StorageErr where
  | storageFailure

/-- `update_trade` (database.py lines 89-102):
`UPDATE trades SET <update_data> WHERE id = trade_id`, commit, then
`return result.rowcount > 0`.  There is no existence check and no
`NotFound` path: the `WHERE` clause simply matches zero or more rows and
the matched count is reported as a boolean. -/
def update_trade (trade_id : String) (u : UpdateData) (s : List TradeLog) :
    Except StorageErr (List TradeLog × Bool) :=
  Except.ok
    (s.map (fun r => if r.id = trade_id then applyUpdate r u else r),
     s.any (fun r => r.id == trade_id))

/-- A sample open trade used to instantiate the trade-update theorems. -/
def sampleTrade : TradeLog where
  id := "t9"
  symbol := "BTCUSDT"
  side := "Buy"
  quantity := Json.num 1
  entry_price := Json.num 100
  exit_price := Json.null
  stop_loss := Json.num 99
  take_profit := Json.num 101
  leverage := Json.num 5
  status := "open"
  pnl := Json.null
  pnl_percentage := Json.null
  opened_at := 5
  closed_at := none
  reason := ""
  metadata := Json.null
  created_at := 5

/-- Claim C2, counterexample: on a ledger with no row of id `"t1"`,
`update_trade` does not fail — it returns `Except.ok` carrying `false`.
The claim's required `NotFound` failure does not exist in the code. -/
theorem c2_update_trade_notfound_counterexample :
    update_trade "t1" { status := some "closed" } [] = Except.ok ([], false) :=
  rfl

lemma map_update_eq_self (tid : String) (u : UpdateData) (l : List TradeLog)
    (h : ∀ x ∈ l, ¬ x.id = tid) :
    l.map (fun r => if r.id = tid then applyUpdate r u else r) = l := by
  induction l with
  | nil => rfl
  | cons x xs ih =>
    have hx := h x (List.mem_cons_self x xs)
    simp only [List.map_cons, if_neg hx]
    rw [ih fun y hy => h y (List.mem_cons_of_mem x hy)]

/-- Claim C2, amended: `update_trade trade_id u s` merges the supplied
fields into the row matching `trade_id` and returns, inside a successful
(`Except.ok`, never `NotFound`) result, whether a row was matched: `true`
with the merged row present when a row with that id exists, and `false`
with the ledger unchanged when none does. -/
theorem c2_update_trade_merge (tid : String) (u : UpdateData)
    (s : List TradeLog) (r : TradeLog) (hmem : r ∈ s) (hid : r.id = tid) :
    (∃ s', update_trade tid u s = Except.ok (s', true) ∧
        applyUpdate r u ∈ s' ∧ s'.length = s.length) ∧
    update_trade tid u (s.filter (fun r2 => !(r2.id == tid)))
      = Except.ok (s.filter (fun r2 => !(r2.id == tid)), false) := by
  constructor
  · refine ⟨s.map (fun r => if r.id = tid then applyUpdate r u else r), ?_, ?_, ?_⟩
    · unfold update_trade
      have hany : s.any (fun r => r.id == tid) = true :=
        List.any_eq_true.mpr ⟨r, hmem, beq_iff_eq.mpr hid⟩
      rw [hany]
    · refine List.mem_map.mpr ⟨r, hmem, ?_⟩
      rw [if_pos hid]
    · exact s.length_map _
  · have hall : ∀ x ∈ s.filter (fun r2 => !(r2.id == tid)), ¬ x.id = tid := by
      intro x hx
      have := (List.mem_filter.mp hx).2
      simpa using this
    unfold update_trade
    rw [map_update_eq_self tid u _ hall]
    have hany : (s.filter (fun r2 => !(r2.id == tid))).any
        (fun r => r.id == tid) = false := by
      rw [List.any_eq_false]
      intro x hx
      exact fun hb => hall x hx (beq_iff_eq.mp hb)
    rw [hany]

/-- Concrete instance of `c2_update_trade_merge` on a one-row ledger. -/
theorem c2_update_trade_merge_witness :
    (∃ s', update_trade "t9" { pnl := some (Json.num 3) } [sampleTrade]
          = Except.ok (s', true) ∧
        applyUpdate sampleTrade { pnl := some (Json.num 3) } ∈ s' ∧
        s'.length = [sampleTrade].length) ∧
    update_trade "t9" { pnl := some (Json.num 3) }
        ([sampleTrade].filter (fun r2 => !(r2.id == "t9")))
      = Except.ok ([sampleTrade].filter (fun r2 => !(r2.id == "t9")), false) :=
  c2_update_trade_merge "t9" { pnl := some (Json.num 3) } [sampleTrade]
    sampleTrade (List.mem_cons_self sampleTrade []) rfl

/-- A sample trade already in the terminal `closed` status. -/
def closedTrade : TradeLog :=
  { sampleTrade with
    id := "t1"
    status := "closed"
    exit_price := Json.num 101
    pnl := Json.num 1
    pnl_percentage := Json.num 1
    closed_at := some 20
    reason := "tp" }

/-- Claim C6, counterexample: a trade whose status is the terminal
`"closed"` is reopened by `update_trade` setting `status` back to
`"open"`; the update is neither rejected nor a no-op, so status is not
monotonic. -/
theorem c6_reopen_closed_counterexample :
    closedTrade.status = "closed" ∧
    update_trade "t1" { status := some "open" } [closedTrade]
      = Except.ok ([{ closedTrade with status := "open" }], true) ∧
    ({ closedTrade with status := "open" } : TradeLog).status = "open" :=
  ⟨rfl, rfl, rfl⟩

/-- Claim C6, amended: `update_trade` performs no status-transition
validation at all — whatever `status` value the update supplies is
written to the matched row unconditionally, regardless of the row's
current (possibly terminal) status. -/
theorem c6_status_not_validated (s : List TradeLog) (r : TradeLog)
    (u : UpdateData) (v tid : String) (hv : u.status = some v)
    (hid : r.id = tid) (hmem : r ∈ s) :
    (applyUpdate r u).status = v ∧
    ∃ s', update_trade tid u s = Except.ok (s', true) ∧ applyUpdate r u ∈ s' := by
  refine ⟨by simp [applyUpdate, hv], ?_⟩
  refine ⟨s.map (fun r => if r.id = tid then applyUpdate r u else r), ?_, ?_⟩
  · unfold update_trade
    have hany : s.any (fun r => r.id == tid) = true :=
      List.any_eq_true.mpr ⟨r, hmem, beq_iff_eq.mpr hid⟩
    rw [hany]
  · refine List.mem_map.mpr ⟨r, hmem, ?_⟩
    rw [if_pos hid]

/-- Concrete instance of `c6_status_not_validated`: reopening
`closedTrade`. -/
theorem c6_status_not_validated_witness :
    (applyUpdate closedTrade { status := some "open" }).status = "open" ∧
    ∃ s', update_trade "t1" { status := some "open" } [closedTrade]
        = Except.ok (s', true) ∧
      applyUpdate closedTrade { status := some "open" } ∈ s' :=
  c6_status_not_validated [closedTrade] closedTrade { status := some "open" }
    "open" "t1" rfl rfl (List.mem_cons_self closedTrade [])

/-!
## Recent trades (`get_recent_trades`, database.py lines 78-87)

`SELECT * FROM trades ORDER BY opened_at DESC LIMIT limit`.  The table
declares an ascending index on `opened_at` (database.py line 39), whose
entries are ordered by `(opened_at, rowid)`; SQLite satisfies the
descending `ORDER BY` by scanning that index backward, so rows arrive in
`opened_at` descending order and, within an equal `opened_at`, in rowid
descending order — the reverse of insertion order.  (SQL itself
guarantees no particular tie order; this is the order the deployed
engine and plan produce.)
-/

/-- The ordering produced by `ORDER BY opened_at DESC`: later (or equal)
open timestamps first. -/
def openedGe (a b : TradeLog) : Prop := b.opened_at ≤ a.opened_at

/-- Insert a row into a backward index scan under construction: after
every row with a strictly greater `opened_at` and before any row with an
equal one — the inserted row has the largest rowid so far, which the
backward scan yields first among equal keys. -/
def indexScanInsert (r : TradeLog) : List TradeLog → List TradeLog
  | [] => [r]
  | x :: xs =>
    if r.opened_at < x.opened_at then x :: indexScanInsert r xs else r :: x :: xs

/-- The backward scan of the `(opened_at, rowid)` index over the table's
insertion-order rows: `opened_at` descending, ties by rowid descending,
i.e. reverse insertion order. -/
def orderByOpenedAtDesc (l : List TradeLog) : List TradeLog :=
  l.foldl (fun acc r => indexScanInsert r acc) []

/-- `get_recent_trades` (database.py lines 78-87): the descending index
scan on `opened_at`, then `LIMIT`. -/
def get_recent_trades (lim : Nat) (s : List TradeLog) : List TradeLog :=
  (orderByOpenedAtDesc s).take lim

lemma mem_indexScanInsert {r a : TradeLog} {l : List TradeLog} :
    a ∈ indexScanInsert r l ↔ a ∈ r :: l := by
  induction l with
  | nil => simp [indexScanInsert]
  | cons x xs ih =>
    by_cases h : r.opened_at < x.opened_at
    · simp only [indexScanInsert, if_pos h, List.mem_cons, ih]
      tauto
    · simp only [indexScanInsert, if_neg h, List.mem_cons]

lemma pairwise_indexScanInsert (r : TradeLog) {l : List TradeLog}
    (h : List.Pairwise openedGe l) :
    List.Pairwise openedGe (indexScanInsert r l) := by
  induction l with
  | nil => simp [indexScanInsert, openedGe]
  | cons x xs ih =>
    obtain ⟨hx, hxs⟩ := List.pairwise_cons.mp h
    by_cases hcmp : r.opened_at < x.opened_at
    · rw [indexScanInsert, if_pos hcmp]
      refine List.pairwise_cons.mpr ⟨?_, ih hxs⟩
      intro a ha
      rcases List.mem_cons.mp (mem_indexScanInsert.mp ha) with rfl | ha2
      · exact Nat.le_of_lt hcmp
      · exact hx a ha2
    · rw [indexScanInsert, if_neg hcmp]
      have hxr : x.opened_at ≤ r.opened_at := Nat.not_lt.mp hcmp
      refine List.pairwise_cons.mpr ⟨?_, h⟩
      intro a ha
      rcases List.mem_cons.mp ha with rfl | ha2
      · exact hxr
      · exact Nat.le_trans (hx a ha2) hxr

lemma filter_indexScanInsert (t : Nat) (r : TradeLog) (l : List TradeLog) :
    (indexScanInsert r l).filter (fun a => a.opened_at == t) =
      if r.opened_at = t then
        r :: l.filter (fun a => a.opened_at == t)
      else l.filter (fun a => a.opened_at == t) := by
  induction l with
  | nil => by_cases ht : r.opened_at = t <;> simp [indexScanInsert, ht]
  | cons x xs ih =>
    by_cases hcmp : r.opened_at < x.opened_at
    · rw [indexScanInsert, if_pos hcmp]
      by_cases ht : r.opened_at = t
      · have hxt : ¬ x.opened_at = t := by omega
        simp [List.filter_cons, ih, ht, hxt]
      · simp [List.filter_cons, ih, ht]
    · rw [indexScanInsert, if_neg hcmp]
      by_cases ht : r.opened_at = t <;> simp [List.filter_cons, ht]

lemma scan_loop (t : Nat) :
    ∀ (l acc : List TradeLog), List.Pairwise openedGe acc →
      List.Pairwise openedGe (l.foldl (fun a r => indexScanInsert r a) acc) ∧
      (l.foldl (fun a r => indexScanInsert r a) acc).filter
          (fun a => a.opened_at == t) =
        (l.filter (fun a => a.opened_at == t)).reverse ++
          acc.filter (fun a => a.opened_at == t)
  | [], _, h => ⟨h, by simp⟩
  | r :: l, acc, h => by
    obtain ⟨hp, hf⟩ :=
      scan_loop t l (indexScanInsert r acc) (pairwise_indexScanInsert r h)
    refine ⟨hp, ?_⟩
    rw [List.foldl_cons]
    rw [hf, filter_indexScanInsert t r acc, List.filter_cons]
    by_cases ht : r.opened_at = t
    · simp [ht, List.append_assoc]
    · simp [ht]

lemma sorted_orderByOpenedAtDesc (s : List TradeLog) :
    List.Pairwise openedGe (orderByOpenedAtDesc s) :=
  (scan_loop 0 s [] (List.Pairwise.nil)).1

lemma filter_orderByOpenedAtDesc (s : List TradeLog) (t : Nat) :
    (orderByOpenedAtDesc s).filter (fun a => a.opened_at == t) =
      (s.filter (fun a => a.opened_at == t)).reverse := by
  have := (scan_loop t s [] (List.Pairwise.nil)).2
  simpa [orderByOpenedAtDesc] using this

/-- A sample trade opened at time `o`, used to instantiate the ordering
claim on concrete trades. -/
def mkTrade (i : String) (o : Nat) : TradeLog :=
  { sampleTrade with id := i, opened_at := o, created_at := o }

/-- Claim C7, counterexample: two trades opened at the same time, "A"
inserted before "B", come back from `get_recent_trades` as ["B", "A"] —
reverse insertion order, not the insertion order the claim requires for
ties. -/
theorem c7_tie_order_counterexample :
    (get_recent_trades 2 [mkTrade "A" 7, mkTrade "B" 7]).map (fun r => r.id)
        = ["B", "A"] ∧
    (get_recent_trades 2 [mkTrade "A" 7, mkTrade "B" 7]).map (fun r => r.id)
        ≠ ["A", "B"] :=
  ⟨rfl, by decide⟩

/-- Claim C7, amended: `get_recent_trades n` returns at most `n` rows,
ordered by `opened_at` descending; rows sharing an `opened_at` appear in
reverse insertion order (the backward scan of the `opened_at` index
yields equal keys by descending rowid): the result's rows of any fixed
timestamp are an initial segment of the reversed table rows of that
timestamp.  Over three trades opened at distinct times 1 < 2 < 3 the
full result is [T3, T2, T1]. -/
theorem c7_recent_trades_ordering (s : List TradeLog) (n : Nat) :
    (get_recent_trades n s).length ≤ n ∧
    List.Pairwise openedGe (get_recent_trades n s) ∧
    (∀ t : Nat, ∃ rest,
        (s.filter (fun a => a.opened_at == t)).reverse =
          (get_recent_trades n s).filter (fun a => a.opened_at == t) ++ rest) ∧
    (get_recent_trades 3 [mkTrade "T1" 1, mkTrade "T2" 2, mkTrade "T3" 3]).map
        (fun r => r.id) = ["T3", "T2", "T1"] := by
  refine ⟨?_, ?_, ?_, rfl⟩
  · calc (get_recent_trades n s).length
        = n ⊓ (orderByOpenedAtDesc s).length := List.length_take n _
      _ ≤ n := inf_le_left
  · exact List.Pairwise.sublist (List.take_sublist n _) (sorted_orderByOpenedAtDesc s)
  · intro t
    refine ⟨((orderByOpenedAtDesc s).drop n).filter (fun a => a.opened_at == t), ?_⟩
    rw [← filter_orderByOpenedAtDesc s t]
    conv_lhs => rw [← List.take_append_drop n (orderByOpenedAtDesc s)]
    rw [List.filter_append]
    rfl

/-!
## Supervisor (`ScalpingBot`, main.py)

The supervisor's code paths are modelled as the sequences of externally
visible events they emit.  `Ev.procExit c` is `sys.exit(c)` reaching the
process boundary (`SystemExit` is a `BaseException`, so the `except
Exception` handlers in `run`/`main` do not catch it).
-/

/-- Externally visible supervisor events. -/
inductive Ev where
  | logSignal (signum : Nat)
  | logShuttingDown
  | stopEngine
  | stopHealth
  | stopNotifier
  | logShutdownComplete
  | procExit (c : Nat)
  | logFatal (m : String)
  | notifyCrash (m : String)
  | logMissingEnv
  | constructEngine
  | constructNotifier
deriving DecidableEq

/-- Events of `ScalpingBot.shutdown` (main.py lines 49-58) up to its
suspension point: log, then `await self.trading_engine.stop()` (the
`hasattr` guard holds on any constructed bot). -/
def shutdownPhase1 : List Ev := [Ev.logShuttingDown, Ev.stopEngine]

/-- Events of `ScalpingBot.shutdown` after the engine stop returns:
final log, then `sys.exit(0)`. -/
def shutdownPhase2 : List Ev := [Ev.logShutdownComplete, Ev.procExit 0]

/-- The complete event sequence of one run of `ScalpingBot.shutdown`
(main.py lines 49-58).  The engine stop is the only `stop` it delivers:
the health-endpoint server task and the notifier daemon thread are never
signalled and die with the process. -/
def shutdownEvents : List Ev := shutdownPhase1 ++ shutdownPhase2

/-- Whether an event is a `stop` delivered to a subsystem. -/
def isStopEv : Ev → Bool
  | Ev.stopEngine => true
  | Ev.stopHealth => true
  | Ev.stopNotifier => true
  | _ => false

/-- The telegram fields of `TradingConfig` (config.py lines 29-30) that
gate the crash notification; empty string is the unset (falsy) value. -/
structure BotConfig where
  TELEGRAM_BOT_TOKEN : String
  TELEGRAM_CHAT_ID : String

/-- The `except Exception` branch of `ScalpingBot.run` (main.py lines
162-171) on a fatal error `e`: log the error, send the crash notification
(message truncated to 200 characters) when both telegram settings are
configured and delivery succeeds, then `await self.shutdown()`. -/
def runFatalPath (cfg : BotConfig) (e : String) : List Ev :=
  [Ev.logFatal e] ++
    (if cfg.TELEGRAM_BOT_TOKEN ≠ "" ∧ cfg.TELEGRAM_CHAT_ID ≠ "" then
      [Ev.notifyCrash (e.take 200)]
    else []) ++
  shutdownEvents

/-- The exit status the process terminates with, given the event trace:
the code of the first `sys.exit` reaching the process boundary. -/
def exitCodeOf (l : List Ev) : Option Nat :=
  l.findSome? (fun e => match e with | Ev.procExit c => some c | _ => none)

/-- Claim C3, counterexample: a fatal error inside the running loop, with
the notifier fully configured, ends in `sys.exit(0)` — exit code 0, not
the non-zero code the claim requires, and hence exit code 0 is not
exclusive to clean shutdown. -/
theorem c3_fatal_exit_zero_counterexample :
    exitCodeOf (runFatalPath ⟨"token", "chat"⟩ "boom") = some 0 := rfl

/-- Claim C3, amended: a fatal error in the running supervisor loop is
logged and (when the notifier is configured) produces a best-effort crash
notification with the message truncated to 200 characters, but the
process then exits through the ordinary shutdown path with exit code 0;
exit code 0 is therefore not exclusive to clean shutdown. -/
theorem c3_fatal_error_path (cfg : BotConfig) (e : String)
    (ht : cfg.TELEGRAM_BOT_TOKEN ≠ "") (hc : cfg.TELEGRAM_CHAT_ID ≠ "") :
    Ev.logFatal e ∈ runFatalPath cfg e ∧
    Ev.notifyCrash (e.take 200) ∈ runFatalPath cfg e ∧
    exitCodeOf (runFatalPath cfg e) = some 0 := by
  have hcfg : cfg.TELEGRAM_BOT_TOKEN ≠ "" ∧ cfg.TELEGRAM_CHAT_ID ≠ "" := ⟨ht, hc⟩
  refine ⟨?_, ?_, ?_⟩
  · simp [runFatalPath]
  · simp [runFatalPath, hcfg]
  · simp only [runFatalPath, if_pos hcfg, exitCodeOf, shutdownEvents,
      shutdownPhase1, shutdownPhase2, List.cons_append, List.nil_append,
      List.findSome?_cons]

/-- Concrete instance of `c3_fatal_error_path`. -/
theorem c3_fatal_error_path_witness :
    Ev.logFatal "boom" ∈ runFatalPath ⟨"token", "chat"⟩ "boom" ∧
    Ev.notifyCrash ("boom".take 200) ∈ runFatalPath ⟨"token", "chat"⟩ "boom" ∧
    exitCodeOf (runFatalPath ⟨"token", "chat"⟩ "boom") = some 0 :=
  c3_fatal_error_path ⟨"token", "chat"⟩ "boom" (by decide) (by decide)

/-- Claim C4, counterexample: the shutdown sequence delivers no `stop` to
the Health Endpoint and none to the Notifier, so the claimed
Engine-then-Health-then-Notifier delivery does not happen. -/
theorem c4_shutdown_order_counterexample :
    Ev.stopHealth ∉ shutdownEvents ∧ Ev.stopNotifier ∉ shutdownEvents := by
  decide

/-- Claim C4, amended: the shutdown sequence delivers `stop` only to the
Engine Loop; the Health Endpoint and the Notifier are never sent a stop
and are terminated only by process exit.  (The single stop is trivially
never reordered.) -/
theorem c4_shutdown_stops_engine_only :
    shutdownEvents.filter isStopEv = [Ev.stopEngine] := by decide

/-!
Shutdown scheduling (`signal_handler`, main.py lines 44-47): every
delivered signal unconditionally runs `asyncio.create_task(self.shutdown())`
— there is no already-shutting-down guard anywhere.  Each scheduled
shutdown task runs `shutdownPhase1` up to the `await` on the engine stop,
suspends, and emits `shutdownPhase2` when resumed.  The asyncio ready
queue is FIFO: `runQueue` steps the front task to its next suspension
point, requeues it, and stops the whole process at the first `sys.exit`.
-/

/-- Progress of one scheduled `shutdown()` task. -/
inductive SPC where
  | sstart
  | awaited
  | sdone
deriving DecidableEq

/-- One scheduler step of a `shutdown()` task: run to the next suspension
point, returning the continuation state and the emitted events. -/
def stepTask : SPC → SPC × List Ev
  | SPC.sstart => (SPC.awaited, shutdownPhase1)
  | SPC.awaited => (SPC.sdone, shutdownPhase2)
  | SPC.sdone => (SPC.sdone, [])

/-- Whether a step emitted a `sys.exit` (which terminates the loop). -/
def hasExitEv (evs : List Ev) : Bool :=
  evs.any (fun e => match e with | Ev.procExit _ => true | _ => false)

/-- FIFO cooperative scheduler over the pending shutdown tasks, fuelled. -/
def runQueue : Nat → List SPC → List Ev
  | 0, _ => []
  | _ + 1, [] => []
  | fuel + 1, t :: rest =>
    let p := stepTask t
    if hasExitEv p.2 then p.2
    else p.2 ++ runQueue fuel (rest ++ (if p.1 = SPC.sdone then [] else [p.1]))

/-- Supervisor state visible to the signal handler: the ready queue of
scheduled shutdown tasks and the log. -/
structure SupState where
  pending : List SPC
  log : List Ev

/-- `ScalpingBot.signal_handler` (main.py lines 44-47): log the signal
and unconditionally schedule a fresh `shutdown()` task.  No flag is
consulted or set. -/
def signal_handler (signum : Nat) (st : SupState) : SupState where
  pending := st.pending ++ [SPC.sstart]
  log := st.log ++ [Ev.logSignal signum]

/-- Claim C5, counterexample: delivering a second signal while the first
shutdown is pending schedules a second unguarded `shutdown()` task, and
running the ready queue stops the trading engine twice — two teardown
sequences, not one. -/
theorem c5_double_shutdown_counterexample :
    ((runQueue 10 (signal_handler 15 (signal_handler 2 ⟨[], []⟩)).pending).count
      Ev.stopEngine) = 2 := by decide

/-- Claim C5, amended: `signal_handler` appends a new shutdown task on
every trigger with no already-shutting-down guard, so n triggers execute
n teardowns: one pending task stops the engine once, two pending tasks
stop it twice (the first task suspends at the engine-stop await, letting
the second run its teardown before the first reaches `sys.exit`). -/
theorem c5_shutdown_not_idempotent (st : SupState) (signum : Nat) :
    (signal_handler signum st).pending = st.pending ++ [SPC.sstart] ∧
    (runQueue 10 [SPC.sstart]).count Ev.stopEngine = 1 ∧
    (runQueue 10 [SPC.sstart, SPC.sstart]).count Ev.stopEngine = 2 :=
  ⟨rfl, by decide, by decide⟩

/-!
## Startup validation (`ScalpingBot.__init__` / `_validate_config`,
main.py lines 18-42)

The environment is an association list of variable name to value.
`_validate_config` runs before the engine and telegram subsystems are
constructed and before anything is started; on missing credentials it
calls `sys.exit(1)`, which no handler catches.
-/

/-- `os.getenv`: the first binding of the variable, if any. -/
def getenv (env : List (String × String)) (k : String) : Option String :=
  (env.find? (fun p => p.1 == k)).map (fun p => p.2)

/-- `required_vars` of `_validate_config` (main.py line 37). -/
def required_vars : List String := ["BYBIT_API_KEY", "BYBIT_API_SECRET"]

/-- The `missing` list of `_validate_config` (main.py line 38): variables
that are unset or empty (Python falsy). -/
def missingVars (env : List (String × String)) : List String :=
  required_vars.filter (fun v =>
    match getenv env v with
    | none => true
    | some s => s == "")

/-- `ScalpingBot.__init__` (main.py lines 18-33): load config, validate,
and only then construct the subsystems.  Returns the emitted events and
`some exitCode` when `_validate_config` called `sys.exit`. -/
def scalpingBotInit (env : List (String × String)) : List Ev × Option Nat :=
  if missingVars env = [] then
    ([Ev.constructEngine, Ev.constructNotifier], none)
  else
    ([Ev.logMissingEnv], some 1)

/-- Claim C8: when the API key or API secret is absent (or empty) in the
environment, startup terminates with exit status 1 and no subsystem is
constructed or started. -/
theorem c8_missing_credentials_exit (env : List (String × String))
    (h : getenv env "BYBIT_API_KEY" = none ∨ getenv env "BYBIT_API_KEY" = some "" ∨
         getenv env "BYBIT_API_SECRET" = none ∨
         getenv env "BYBIT_API_SECRET" = some "") :
    (scalpingBotInit env).2 = some 1 ∧
    Ev.constructEngine ∉ (scalpingBotInit env).1 ∧
    Ev.constructNotifier ∉ (scalpingBotInit env).1 := by
  have hmem : "BYBIT_API_KEY" ∈ missingVars env ∨
      "BYBIT_API_SECRET" ∈ missingVars env := by
    rcases h with h | h | h | h
    · exact Or.inl (List.mem_filter.mpr ⟨by decide, by rw [h]⟩)
    · exact Or.inl (List.mem_filter.mpr ⟨by decide, by rw [h]; rfl⟩)
    · exact Or.inr (List.mem_filter.mpr ⟨by decide, by rw [h]⟩)
    · exact Or.inr (List.mem_filter.mpr ⟨by decide, by rw [h]; rfl⟩)
  have hne : missingVars env ≠ [] := by
    intro hnil
    rcases hmem with hm | hm <;> simp [hnil] at hm
  rw [scalpingBotInit, if_neg hne]
  refine ⟨rfl, ?_, ?_⟩ <;> decide

/-- Concrete instance of `c8_missing_credentials_exit`: the key is set
but the secret is absent. -/
theorem c8_missing_credentials_exit_witness :
    (scalpingBotInit [("BYBIT_API_KEY", "k")]).2 = some 1 ∧
    Ev.constructEngine ∉ (scalpingBotInit [("BYBIT_API_KEY", "k")]).1 ∧
    Ev.constructNotifier ∉ (scalpingBotInit [("BYBIT_API_KEY", "k")]).1 :=
  c8_missing_credentials_exit [("BYBIT_API_KEY", "k")]
    (Or.inr (Or.inr (Or.inl rfl)))

/-!
## Schema initialization (`init_db`, database.py lines 53-59)

On Render the store is SQLite at `./data/trades.db`.  `init_db` first
runs `Base.metadata.create_all` inside `engine.begin()` — which opens the
database file, and SQLite cannot create `./data/trades.db` while the
`data` directory is absent — and only afterwards runs
`os.makedirs("data", exist_ok=True)`.
-/

/-- Failure of `engine.begin()`: SQLite cannot open/create the database
file because its parent directory does not exist. -/
inductive DbErr where
  | unableToOpenDatabaseFile
deriving DecidableEq

/-- State of the durable store: whether the `data` directory exists on
disk, and which tables have been created. -/
structure LedgerState where
  dirExists : Bool
  tables : List String
deriving DecidableEq

/-- The two tables of the declarative schema (database.py lines 24-51). -/
def schemaTables : List String := ["trades", "bot_settings"]

/-- `Base.metadata.create_all`: create each schema table that does not
exist yet (`checkfirst` behaviour, idempotent). -/
def create_all (st : LedgerState) : LedgerState :=
  { st with tables := st.tables ++ schemaTables.filter (fun t => !(st.tables.contains t)) }

/-- `init_db` (database.py lines 53-59): `create_all` inside
`engine.begin()`, then `os.makedirs("data", exist_ok=True)`.  Opening the
database requires the `data` directory to already exist, so the
`makedirs` that would create it is only reached when it is not needed. -/
def init_db (st : LedgerState) : Except DbErr LedgerState :=
  if st.dirExists then
    Except.ok { create_all st with dirExists := true }
  else
    Except.error DbErr.unableToOpenDatabaseFile

/-- Claim C9: `init_db` is idempotent against an already-initialized
store, but on the one starting state where the `data` directory is
absent — the only state in which the `makedirs` call has any purpose —
it fails before reaching `makedirs` instead of succeeding and creating
the directory. -/
theorem c9_init_db_dir_ordering :
    init_db ⟨false, []⟩ = Except.error DbErr.unableToOpenDatabaseFile ∧
    init_db ⟨true, []⟩ = Except.ok ⟨true, schemaTables⟩ ∧
    init_db ⟨true, schemaTables⟩ = Except.ok ⟨true, schemaTables⟩ :=
  ⟨rfl, rfl, rfl⟩

end HftBot
